import Mathlib

/-!
Shallow embedding of two Terraform AzureRM resource adapters:

* `azurerm/resource_arm_recovery_services_replication_fabric.go`
  (recovery-services replication fabric: Create / Read / Delete), and
* `azurerm/internal/services/loganalytics/resource_arm_log_analytics_datasource_windows_performance_counter.go`
  (log-analytics Windows performance-counter data source:
  CreateUpdate / Read / Delete).

The remote (Azure) side is modelled as an explicit environment holding, for
each remote call the Go code performs, the response the call would observe:
whether the Go error value was non-nil (`hasError`), whether
`utils.ResponseWasNotFound` holds of the HTTP response (`notFound`), and the
payload fields the code reads.  Each adapter function is a pure Lean function
from the environment and the Terraform `ResourceData` state to
(optional error, final state, list of remote calls issued), mirroring the Go
control flow statement by statement.
-/

/-! ### JSON values (the loosely-typed nested properties document)

Go marshals `dataSourceWindowsPerformanceCounterProperty` into a JSON object
with fields `counterName`, `instanceName`, `intervalSeconds`, `objectName`
(the struct's json tags), and Read flattens the returned
`map[string]interface{}` back to JSON and unmarshals it into the same struct.
A JSON object is modelled as an association list of field name to value. -/

inductive JVal where
  | str (s : String)
  | num (n : Int)
  | null
  deriving DecidableEq, Repr

/-- A JSON object: the `map[string]interface{}` / marshalled document. -/
def JObj : Type := List (String × JVal)

instance : DecidableEq JObj := inferInstanceAs (DecidableEq (List (String × JVal)))

instance : Repr JObj := inferInstanceAs (Repr (List (String × JVal)))

/-- The Go struct `dataSourceWindowsPerformanceCounterProperty`
(source lines 88-93). -/
structure DsProperty where
  counterName : String
  instanceName : String
  intervalSeconds : Int
  objectName : String
  deriving DecidableEq, Repr

/-- Marshalling of `dataSourceWindowsPerformanceCounterProperty` as the remote
API's nested properties document: one field per json tag of the Go struct. -/
def encodeProperty (p : DsProperty) : JObj :=
  [("counterName", JVal.str p.counterName),
   ("instanceName", JVal.str p.instanceName),
   ("intervalSeconds", JVal.num p.intervalSeconds),
   ("objectName", JVal.str p.objectName)]

/-- `json.Unmarshal` of one string-typed struct field: a missing field or a
JSON null leaves the zero value `""`; a value of the wrong JSON type is an
unmarshalling error (`none`). -/
def decodeStrField (doc : JObj) (key : String) : Option String :=
  match doc.lookup key with
  | Option.none => some ""
  | some (JVal.str s) => some s
  | some JVal.null => some ""
  | some (JVal.num _) => none

/-- `json.Unmarshal` of one int-typed struct field (zero value `0`). -/
def decodeIntField (doc : JObj) (key : String) : Option Int :=
  match doc.lookup key with
  | Option.none => some 0
  | some (JVal.num n) => some n
  | some JVal.null => some 0
  | some (JVal.str _) => none

/-- The Read path's decoding of the properties document
(source lines 171-180): `structure.FlattenJsonToString` of the
`map[string]interface{}` followed by `json.Unmarshal` into
`dataSourceWindowsPerformanceCounterProperty`; the JSON-string intermediate is
the identity on the document, so the composite reads each tagged field with a
strict type check. -/
def decodeProperty (doc : JObj) : Option DsProperty :=
  match decodeStrField doc "counterName", decodeStrField doc "instanceName",
        decodeIntField doc "intervalSeconds", decodeStrField doc "objectName" with
  | some c, some i, some n, some o => some ⟨c, i, n, o⟩
  | _, _, _, _ => none

/-! ### Schema validation -/

/-- `validation.IntBetween(lo, hi)` from the terraform-plugin-sdk, as used at
the call site: the produced validator accepts `v` iff `lo ≤ v ≤ hi`. -/
def IntBetween (lo hi v : Int) : Bool :=
  decide (lo ≤ v) && decide (v ≤ hi)

/-- `math.MaxInt32`. -/
def maxInt32 : Int := 2147483647

/-- The `interval_seconds` attribute's ValidateFunc
(source lines 73-77): `validation.IntBetween(10, math.MaxInt32)`. -/
def intervalSecondsValidate (v : Int) : Bool :=
  IntBetween 10 maxInt32 v

example : intervalSecondsValidate 5 = false := by decide
example : intervalSecondsValidate 10 = true := by decide
example : decodeProperty (encodeProperty ⟨"% Processor Time", "_Total", 60, "Processor"⟩) =
    some ⟨"% Processor Time", "_Total", 60, "Processor"⟩ := by decide

/-! ### Resource identifier codec

`parseAzureResourceID` (used by the fabric's Read/Delete) and
`parse.LogAnalyticsDataSourceID` (used by the data source's Read/Delete) are
not part of the excerpt; the codec is modelled from the spec. -/

/-- Modelled from the spec: the structured form of a resource path
(`ResourceIdentifier`: subscription, resource group, parent resource, resource
name), with the two slash-segment keys that introduce the parent and the
resource (for the fabric `vaults`/`replicationFabrics`, for the data source
the workspace and data-source segments). -/
structure ResourceIdentifier where
  subscriptionId : String
  resourceGroup : String
  parentType : String
  parentPath : String
  resourceType : String
  resourceName : String
  deriving DecidableEq, Repr

/-- Splitting a character list at every `'/'` (the slash-delimited resource
path's segments); always returns at least one segment. -/
def splitSlash : List Char → List (List Char)
  | [] => [[]]
  | c :: cs =>
    match splitSlash cs with
    | [] => [[c]]
    | s :: r => if c = '/' then [] :: s :: r else (c :: s) :: r

/-- Joining segments with `'/'`: the inverse of `splitSlash`. -/
def joinSlash : List (List Char) → List Char
  | [] => []
  | [s] => s
  | s :: r => s ++ '/' :: joinSlash r

/-- Modelled from the spec: `parse(id string) -> ResourceIdentifier |
Error(MalformedID)` splits the slash-delimited resource path into named
segments and fails (returns `none`) if required segments are absent or empty. -/
def parseID (s : String) : Option ResourceIdentifier :=
  match splitSlash s.data with
  | [pre, kSub, sub, kRg, rg, pk, pv, rk, rn] =>
    if pre = [] ∧ kSub = "subscriptions".data ∧ kRg = "resourceGroups".data ∧
        sub ≠ [] ∧ rg ≠ [] ∧ pk ≠ [] ∧ pv ≠ [] ∧ rk ≠ [] ∧ rn ≠ [] then
      some ⟨String.mk sub, String.mk rg, String.mk pk, String.mk pv,
            String.mk rk, String.mk rn⟩
    else none
  | _ => none

/-- Modelled from the spec: `format(ResourceIdentifier) -> string`, the
inverse of `parseID`. -/
def formatID (x : ResourceIdentifier) : String :=
  String.mk (joinSlash
    [[], "subscriptions".data, x.subscriptionId.data,
     "resourceGroups".data, x.resourceGroup.data,
     x.parentType.data, x.parentPath.data,
     x.resourceType.data, x.resourceName.data])

/-- A path segment that can round-trip: non-empty and slash-free. -/
def validSegment (l : List Char) : Bool :=
  !l.isEmpty && !l.elem '/'

/-- A valid identifier: every variable segment is non-empty and slash-free. -/
def validIdentifier (x : ResourceIdentifier) : Bool :=
  validSegment x.subscriptionId.data && validSegment x.resourceGroup.data &&
  validSegment x.parentType.data && validSegment x.parentPath.data &&
  validSegment x.resourceType.data && validSegment x.resourceName.data

example : parseID "/subscriptions/s1/resourceGroups/rg1/vaults/v1/replicationFabrics/f1" =
    some ⟨"s1", "rg1", "vaults", "v1", "replicationFabrics", "f1"⟩ := by decide
example : (formatID ⟨"s1", "rg1", "vaults", "v1", "replicationFabrics", "f1"⟩).data =
    "/subscriptions/s1/resourceGroups/rg1/vaults/v1/replicationFabrics/f1".data := by decide

/-- `splitSlash` never returns the empty list of segments. -/
theorem splitSlash_ne_nil (l : List Char) : splitSlash l ≠ [] := by
  cases l with
  | nil => simp [splitSlash]
  | cons c cs =>
    simp only [splitSlash]
    cases splitSlash cs with
    | nil => simp
    | cons s r =>
      by_cases h : c = '/' <;> simp [h]

/-- Joining the segments of a split reproduces the original characters. -/
theorem joinSlash_splitSlash (l : List Char) : joinSlash (splitSlash l) = l := by
  induction l with
  | nil => rfl
  | cons c cs ih =>
    simp only [splitSlash]
    rcases hs : splitSlash cs with _ | ⟨s, r⟩
    · exact absurd hs (splitSlash_ne_nil cs)
    · by_cases h : c = '/'
      · subst h
        simp only [if_pos rfl, joinSlash]
        rw [hs] at ih
        cases r with
        | nil =>
          simp only [joinSlash] at ih ⊢
          simp [ih]
        | cons t u =>
          simpa using ih
      · simp only [if_neg h]
        rw [hs] at ih
        cases r with
        | nil =>
          simp only [joinSlash] at ih ⊢
          simp [ih]
        | cons t u =>
          simp only [joinSlash, List.cons_append] at ih ⊢
          simp [ih]

/-- Splitting after prepending a slash-free block extends the first segment. -/
theorem splitSlash_append (a : List Char) (ha : '/' ∉ a) (l : List Char) :
    splitSlash (a ++ l) = (a ++ (splitSlash l).headI) :: (splitSlash l).tail := by
  induction a with
  | nil =>
    rcases hs : splitSlash l with _ | ⟨s, r⟩
    · exact absurd hs (splitSlash_ne_nil l)
    · simp [hs]
  | cons c a ih =>
    have hc : c ≠ '/' := fun h => ha (h ▸ List.mem_cons_self c a)
    have ha' : '/' ∉ a := fun h => ha (List.mem_cons_of_mem c h)
    simp only [List.cons_append, splitSlash, List.append_eq, ih ha', if_neg hc]

/-- Splitting a join recovers the segments, when every segment is slash-free. -/
theorem splitSlash_joinSlash (parts : List (List Char)) (hne : parts ≠ [])
    (h : ∀ p ∈ parts, '/' ∉ p) :
    splitSlash (joinSlash parts) = parts := by
  induction parts with
  | nil => exact absurd rfl hne
  | cons p rest ih =>
    cases rest with
    | nil =>
      have hp : '/' ∉ p := h p (by simp)
      have := splitSlash_append p hp []
      simpa [joinSlash, splitSlash] using this
    | cons q u =>
      have hp : '/' ∉ p := h p (by simp)
      have hrest : ∀ x ∈ q :: u, '/' ∉ x := by
        intro x hx
        exact h x (List.mem_cons_of_mem _ hx)
      have hjoin := ih (by simp) hrest
      simp only [joinSlash]
      rw [splitSlash_append p hp]
      simp [splitSlash, hjoin]

/-- Unpacking `validSegment`. -/
theorem validSegment_spec (l : List Char) (h : validSegment l = true) :
    l ≠ [] ∧ '/' ∉ l := by
  simp only [validSegment, Bool.and_eq_true, Bool.not_eq_true'] at h
  constructor
  · intro he
    subst he
    simp at h
  · intro hm
    have := h.2
    rw [List.elem_eq_true_of_mem hm] at this
    exact absurd this (by simp)

/-- Parsing a formatted valid identifier recovers the identifier. -/
theorem parseID_formatID (x : ResourceIdentifier) (h : validIdentifier x = true) :
    parseID (formatID x) = some x := by
  simp only [validIdentifier, Bool.and_eq_true] at h
  obtain ⟨⟨⟨⟨⟨h1, h2⟩, h3⟩, h4⟩, h5⟩, h6⟩ := h
  obtain ⟨h1e, h1s⟩ := validSegment_spec _ h1
  obtain ⟨h2e, h2s⟩ := validSegment_spec _ h2
  obtain ⟨h3e, h3s⟩ := validSegment_spec _ h3
  obtain ⟨h4e, h4s⟩ := validSegment_spec _ h4
  obtain ⟨h5e, h5s⟩ := validSegment_spec _ h5
  obtain ⟨h6e, h6s⟩ := validSegment_spec _ h6
  have hsplit :
      splitSlash (joinSlash
        [[], "subscriptions".data, x.subscriptionId.data,
         "resourceGroups".data, x.resourceGroup.data,
         x.parentType.data, x.parentPath.data,
         x.resourceType.data, x.resourceName.data]) =
      [[], "subscriptions".data, x.subscriptionId.data,
       "resourceGroups".data, x.resourceGroup.data,
       x.parentType.data, x.parentPath.data,
       x.resourceType.data, x.resourceName.data] := by
    apply splitSlash_joinSlash
    · simp
    · intro p hp
      simp only [List.mem_cons, List.not_mem_nil, or_false] at hp
      rcases hp with rfl | rfl | rfl | rfl | rfl | rfl | rfl | rfl | rfl
      · simp
      · decide
      · exact h1s
      · decide
      · exact h2s
      · exact h3s
      · exact h4s
      · exact h5s
      · exact h6s
  simp only [parseID, formatID, hsplit]
  rw [if_pos]
  exact ⟨trivial, trivial, trivial, h1e, h2e, h3e, h4e, h5e, h6e⟩

/-- Formatting a parsed identifier string reproduces the string exactly. -/
theorem formatID_parseID (s : String) (x : ResourceIdentifier)
    (h : parseID s = some x) :
    formatID x = s := by
  unfold parseID at h
  split at h
  case h_2 => exact absurd h (by simp)
  case h_1 pre kSub sub kRg rg pk pv rk rn heq =>
    split at h
    case isFalse => exact absurd h (by simp)
    case isTrue hcond =>
      obtain ⟨hpre, hks, hkr, _, _, _, _, _, _⟩ := hcond
      have hx : x = ⟨String.mk sub, String.mk rg, String.mk pk, String.mk pv,
          String.mk rk, String.mk rn⟩ := by
        cases h
        rfl
      subst hx hpre hks hkr
      have : joinSlash [[], "subscriptions".data, sub, "resourceGroups".data, rg,
          pk, pv, rk, rn] = s.data := by
        rw [← heq, joinSlash_splitSlash]
      simp only [formatID, this]

/-! ### Errors and remote responses -/

/-- The error values the two adapters return, one constructor per distinct
`return err` / `return fmt.Errorf(...)` site; `importAsExists` is
`tf.ImportAsExistsError(resourceType, id)`. -/
inductive Err where
  | malformedID
  | checkFailed
  | importAsExists (resourceType : String) (id : String)
  | createFailed
  | waitFailed
  | resultFailed
  | readFailed
  | decodeFailed
  | missingID
  | deleteFailed
  deriving DecidableEq, Repr

/-- A generic remote response as the Go code observes it: whether the error
value was non-nil, whether `utils.ResponseWasNotFound` holds (HTTP 404), and
the resource ID pointer (`nil` is `none`). -/
structure Response where
  hasError : Bool
  notFound : Bool
  id : Option String
  deriving DecidableEq, Repr

/-! ### Recovery-services replication fabric
(`resource_arm_recovery_services_replication_fabric.go`) -/

/-- `siterecovery.AzureFabricCreationInput` (source lines 81-84). -/
structure AzureFabricCreationInput where
  location : String
  instanceType : String
  deriving DecidableEq, Repr

/-- `siterecovery.InstanceTypeAzure`. -/
def InstanceTypeAzure : String := "Azure"

/-- `siterecovery.FabricCreationInput` (source lines 87-91): the payload of
the creation request, with the fabric-kind discriminated custom details. -/
structure FabricCreationInput where
  customDetails : AzureFabricCreationInput
  deriving DecidableEq, Repr

/-- The remote calls the fabric adapter can issue, with the mutating calls
carrying their payload. -/
inductive FabricCall where
  | getExisting
  | create (input : FabricCreationInput)
  | waitForCompletion
  | futureResult
  | readGet
  | deleteCall
  | deleteWait
  | deleteResult
  deriving DecidableEq, Repr

/-- The Terraform `ResourceData` for the fabric resource: the tracked
identifier (`d.Id()`, `""` when unset) and the schema attributes. -/
structure FabricState where
  id : String
  name : String
  resource_group_name : String
  vault_name : String
  location : String
  deriving DecidableEq, Repr

/-- `resp.Properties.CustomDetails` as Read observes it:
`AsAzureFabricSpecificDetails` either succeeds (with the details' optional
location pointer) or the details are of another fabric kind. -/
inductive FabricCustomDetails where
  | azure (location : Option String)
  | other
  deriving DecidableEq, Repr

/-- The response to the fabric Read's `client.Get` (source line 129). -/
structure FabricGetResponse where
  hasError : Bool
  notFound : Bool
  name : Option String
  customDetails : FabricCustomDetails
  deriving DecidableEq, Repr

/-- Environment of one fabric Read invocation. -/
structure FabricReadEnv where
  get : FabricGetResponse
  deriving DecidableEq, Repr

/-- Environment of one fabric Create invocation: the existence-check `Get`
response, whether `client.Create`, `future.WaitForCompletionRef` and
`future.Result` fail, the created resource's ID (`*result.ID`), and the
trailing Read's environment. -/
structure FabricCreateEnv where
  guardGet : Response
  createErr : Bool
  waitErr : Bool
  resultErr : Bool
  resultId : String
  readEnv : FabricReadEnv
  deriving DecidableEq, Repr

/-- Environment of one fabric Delete invocation: whether `client.Delete`,
`future.WaitForCompletionRef` and `future.Result` fail, and whether the
result response was a 404. -/
structure FabricDeleteEnv where
  deleteErr : Bool
  waitErr : Bool
  resultErr : Bool
  resultNotFound : Bool
  deriving DecidableEq, Repr

/-- Modelled from the spec: `azureRMNormalizeLocation` (not in the excerpt)
lower-cases the location and strips blanks. -/
def azureRMNormalizeLocation (location : String) : String :=
  String.mk ((location.data.filter (fun c => c ≠ ' ')).map Char.toLower)

/-- `resourceArmRecoveryServicesReplicationFabricRead` (source lines 114-150):
parse the tracked ID; `Get`; a 404 clears the ID and succeeds; any other error
fails; otherwise write name / resource group / vault and, when the custom
details are Azure-specific and carry a location, the normalized location. -/
def fabricRead (env : FabricReadEnv) (d : FabricState) :
    Option Err × FabricState × List FabricCall :=
  match parseID d.id with
  | Option.none => (some Err.malformedID, d, [])
  | some rid =>
    let resp := env.get
    if resp.hasError then
      if resp.notFound then (Option.none, { d with id := "" }, [FabricCall.readGet])
      else (some Err.readFailed, d, [FabricCall.readGet])
    else
      let d1 := { d with name := resp.name.getD "",
                         resource_group_name := rid.resourceGroup,
                         vault_name := rid.parentPath }
      match resp.customDetails with
      | FabricCustomDetails.azure (some l) =>
        (Option.none, { d1 with location := azureRMNormalizeLocation l }, [FabricCall.readGet])
      | _ => (Option.none, d1, [FabricCall.readGet])

/-- The import-safety guard of the fabric Create (source lines 67-78): run
only when `requireResourcesToBeImported && d.IsNewResource()`; a failing
existence check that is not a 404 aborts; a non-nil, non-empty existing ID
aborts with `ImportAsExistsError`. -/
def fabricGuard (requireImport isNew : Bool) (existing : Response) :
    Option Err × List FabricCall :=
  if requireImport && isNew then
    if existing.hasError && !existing.notFound then
      (some Err.checkFailed, [FabricCall.getExisting])
    else
      match existing.id with
      | some i =>
        if i ≠ "" then
          (some (Err.importAsExists "azurerm_recovery_services_replication_fabric" i),
           [FabricCall.getExisting])
        else (Option.none, [FabricCall.getExisting])
      | Option.none => (Option.none, [FabricCall.getExisting])
  else (Option.none, [])

/-- `resourceArmRecoveryServicesReplicationFabricCreate` (source lines
55-112): import-safety guard, then `client.Create` with an Azure-instance
fabric payload, `WaitForCompletionRef`, `future.Result`, `d.SetId(*result.ID)`
and the trailing Read. -/
def fabricCreate (requireImport isNew : Bool) (env : FabricCreateEnv)
    (d : FabricState) : Option Err × FabricState × List FabricCall :=
  match fabricGuard requireImport isNew env.guardGet with
  | (some e, t) => (some e, d, t)
  | (Option.none, t) =>
    let input : FabricCreationInput := ⟨⟨d.location, InstanceTypeAzure⟩⟩
    if env.createErr then
      (some Err.createFailed, d, t ++ [FabricCall.create input])
    else if env.waitErr then
      (some Err.waitFailed, d, t ++ [FabricCall.create input, FabricCall.waitForCompletion])
    else if env.resultErr then
      (some Err.resultFailed, d,
       t ++ [FabricCall.create input, FabricCall.waitForCompletion, FabricCall.futureResult])
    else
      let d1 := { d with id := env.resultId }
      match fabricRead env.readEnv d1 with
      | (r, d2, rt) =>
        (r, d2,
         t ++ [FabricCall.create input, FabricCall.waitForCompletion, FabricCall.futureResult]
           ++ rt)

/-- `resourceArmRecoveryServicesReplicationFabricDelete` (source lines
152-185): parse the tracked ID, `client.Delete`, wait, `future.Result`; a 404
of the result response is success, any other failure an error. -/
def fabricDelete (env : FabricDeleteEnv) (d : FabricState) :
    Option Err × FabricState × List FabricCall :=
  match parseID d.id with
  | Option.none => (some Err.malformedID, d, [])
  | some _ =>
    if env.deleteErr then (some Err.deleteFailed, d, [FabricCall.deleteCall])
    else if env.waitErr then
      (some Err.deleteFailed, d, [FabricCall.deleteCall, FabricCall.deleteWait])
    else if env.resultErr then
      if env.resultNotFound then
        (Option.none, d, [FabricCall.deleteCall, FabricCall.deleteWait, FabricCall.deleteResult])
      else
        (some Err.deleteFailed, d,
         [FabricCall.deleteCall, FabricCall.deleteWait, FabricCall.deleteResult])
    else (Option.none, d, [FabricCall.deleteCall, FabricCall.deleteWait, FabricCall.deleteResult])

/-! ### Log-analytics Windows performance-counter data source
(`resource_arm_log_analytics_datasource_windows_performance_counter.go`) -/

/-- The remote calls the data-source adapter can issue;
`createOrUpdate` carries the payload kind and nested properties document. -/
inductive DsCall where
  | getExisting
  | createOrUpdate (kind : String) (properties : JObj)
  | getAfterCreate
  | readGet
  | deleteCall
  deriving DecidableEq, Repr

/-- The Terraform `ResourceData` for the data-source resource. -/
structure DsState where
  id : String
  name : String
  resource_group_name : String
  workspace_name : String
  counter_name : String
  instance_name : String
  interval_seconds : Int
  object_name : String
  deriving DecidableEq, Repr

/-- The response to the data-source Read's `client.Get` (source line 157):
`resp.Properties` is `nil` (`none`) or a nested document. -/
structure DsGetResponse where
  hasError : Bool
  notFound : Bool
  name : Option String
  properties : Option JObj
  deriving DecidableEq, Repr

/-- Environment of one data-source Read invocation. -/
structure DsReadEnv where
  get : DsGetResponse
  deriving DecidableEq, Repr

/-- Environment of one data-source CreateUpdate invocation: the
existence-check `Get` response, whether `client.CreateOrUpdate` fails, the
`Get` after creation, and the trailing Read's environment. -/
structure DsCreateEnv where
  guardGet : Response
  createOrUpdateErr : Bool
  afterGet : Response
  readEnv : DsReadEnv
  deriving DecidableEq, Repr

/-- Environment of one data-source Delete invocation: the `client.Delete`
response. -/
structure DsDeleteEnv where
  deleteResp : Response
  deriving DecidableEq, Repr

/-- The properties payload built from the configuration (source lines
117-122). -/
def dsProperty (d : DsState) : DsProperty :=
  ⟨d.counter_name, d.instance_name, d.interval_seconds, d.object_name⟩

/-- `resourceArmLogAnalyticsDataSourceWindowsPerformanceCounterRead` (source
lines 147-189): parse the tracked ID; `Get`; a 404 clears the ID and
succeeds; any other error fails; otherwise write name / resource group /
workspace and, when `resp.Properties` is non-nil, flatten and unmarshal it
and write the four counter fields (an unmarshalling failure is an error). -/
def dsRead (env : DsReadEnv) (d : DsState) :
    Option Err × DsState × List DsCall :=
  match parseID d.id with
  | Option.none => (some Err.malformedID, d, [])
  | some rid =>
    let resp := env.get
    if resp.hasError then
      if resp.notFound then (Option.none, { d with id := "" }, [DsCall.readGet])
      else (some Err.readFailed, d, [DsCall.readGet])
    else
      let d1 := { d with name := resp.name.getD "",
                         resource_group_name := rid.resourceGroup,
                         workspace_name := rid.parentPath }
      match resp.properties with
      | Option.none => (Option.none, d1, [DsCall.readGet])
      | some doc =>
        match decodeProperty doc with
        | Option.none => (some Err.decodeFailed, d1, [DsCall.readGet])
        | some p =>
          (Option.none,
           { d1 with counter_name := p.counterName,
                     instance_name := p.instanceName,
                     interval_seconds := p.intervalSeconds,
                     object_name := p.objectName },
           [DsCall.readGet])

/-- The import-safety guard of the data-source CreateUpdate (source lines
104-115): run only for a new resource; a failing existence check that is not
a 404 aborts; any non-404 response aborts with `ImportAsExistsError`. -/
def dsGuard (isNew : Bool) (resp : Response) : Option Err × List DsCall :=
  if isNew then
    if resp.hasError && !resp.notFound then
      (some Err.checkFailed, [DsCall.getExisting])
    else if !resp.notFound then
      (some (Err.importAsExists "azurerm_log_analytics_datasource_windows_performance_counter"
        (resp.id.getD "")),
       [DsCall.getExisting])
    else (Option.none, [DsCall.getExisting])
  else (Option.none, [])

/-- `resourceArmLogAnalyticsDataSourceWindowsPerformanceCounterCreateUpdate`
(source lines 95-145): import-safety guard, `client.CreateOrUpdate` with the
WindowsPerformanceCounter-kind payload, `Get` of the result, the
`resp.ID == nil || *resp.ID == ""` check, `d.SetId(*resp.ID)` and the
trailing Read. -/
def dsCreateUpdate (isNew : Bool) (env : DsCreateEnv) (d : DsState) :
    Option Err × DsState × List DsCall :=
  match dsGuard isNew env.guardGet with
  | (some e, t) => (some e, d, t)
  | (Option.none, t) =>
    let props := encodeProperty (dsProperty d)
    let submit := DsCall.createOrUpdate "WindowsPerformanceCounter" props
    if env.createOrUpdateErr then
      (some Err.createFailed, d, t ++ [submit])
    else if env.afterGet.hasError then
      (some Err.readFailed, d, t ++ [submit, DsCall.getAfterCreate])
    else
      match env.afterGet.id with
      | Option.none => (some Err.missingID, d, t ++ [submit, DsCall.getAfterCreate])
      | some i =>
        if i = "" then (some Err.missingID, d, t ++ [submit, DsCall.getAfterCreate])
        else
          let d1 := { d with id := i }
          match dsRead env.readEnv d1 with
          | (r, d2, rt) => (r, d2, t ++ [submit, DsCall.getAfterCreate] ++ rt)

/-- `resourceArmLogAnalyticsDataSourceWindowsPerformanceCounterDelete` (source
lines 191-206): parse the tracked ID, `client.Delete`; any non-nil error of
the delete call is returned as a failure (there is no 404 special case). -/
def dsDelete (env : DsDeleteEnv) (d : DsState) :
    Option Err × DsState × List DsCall :=
  match parseID d.id with
  | Option.none => (some Err.malformedID, d, [])
  | some _ =>
    if env.deleteResp.hasError then (some Err.deleteFailed, d, [DsCall.deleteCall])
    else (Option.none, d, [DsCall.deleteCall])

/-! ### Derived predicates, schema metadata and sample inputs -/

/-- The fabric import-safety guard lets Create proceed: the existence check
did not fail with a non-404 error, and no non-empty existing ID came back. -/
def fabricGuardPasses (r : Response) : Bool :=
  !(r.hasError && !r.notFound) &&
  (match r.id with
   | some i => i == ""
   | Option.none => true)

/-- All pre-`SetId` steps of the fabric Create succeed: guard (when enabled),
`client.Create`, `WaitForCompletionRef`, `future.Result`. -/
def fabricStepsOK (requireImport isNew : Bool) (env : FabricCreateEnv) : Bool :=
  (!(requireImport && isNew) || fabricGuardPasses env.guardGet) &&
  !env.createErr && !env.waitErr && !env.resultErr

/-- All pre-`SetId` steps of the data-source CreateUpdate succeed: guard
(when the resource is new), `client.CreateOrUpdate`, the `Get` afterwards,
and its response carried a non-empty ID. -/
def dsStepsOK (isNew : Bool) (env : DsCreateEnv) : Bool :=
  (!isNew || env.guardGet.notFound) && !env.createOrUpdateErr &&
  !env.afterGet.hasError &&
  (match env.afterGet.id with
   | some i => !(i == "")
   | Option.none => false)

/-- The complete remote-call sequence of a successful fabric Create. -/
def fabricFullTrace (location : String) : List FabricCall :=
  [FabricCall.getExisting, FabricCall.create ⟨⟨location, InstanceTypeAzure⟩⟩,
   FabricCall.waitForCompletion, FabricCall.futureResult, FabricCall.readGet]

/-- The complete remote-call sequence of a successful data-source Create. -/
def dsFullTrace (d : DsState) : List DsCall :=
  [DsCall.getExisting,
   DsCall.createOrUpdate "WindowsPerformanceCounter" (encodeProperty (dsProperty d)),
   DsCall.getAfterCreate, DsCall.readGet]

/-- One schema attribute's mutability metadata. -/
structure AttrSchema where
  attr : String
  required : Bool
  forceNew : Bool
  deriving DecidableEq, Repr

/-- The fabric resource's schema (source lines 27-51): `name` and
`vault_name` are declared ForceNew in the excerpt; `location` and
`resource_group_name` come from the shared helpers `locationSchema` /
`resourceGroupNameSchema`, modelled from the spec as create-only. -/
def fabricSchema : List AttrSchema :=
  [⟨"name", true, true⟩, ⟨"location", true, true⟩,
   ⟨"resource_group_name", true, true⟩, ⟨"vault_name", true, true⟩]

/-- Which CRUD entry points a resource declares; `update` is `none` when the
Go `schema.Resource` literal has no Update field. -/
structure ResourceOps where
  hasCreate : Bool
  hasRead : Bool
  update : Option Unit
  hasDelete : Bool
  deriving DecidableEq, Repr

/-- The fabric resource's operations (source lines 17-21): Create, Read,
Delete, and no Update. -/
def fabricResourceOps : ResourceOps := ⟨true, true, Option.none, true⟩

/-- The data-source resource's operations (source lines 24-29): CreateUpdate
serves both Create and Update. -/
def dsResourceOps : ResourceOps := ⟨true, true, some (), true⟩

/-- A concrete fabric resource path. -/
def sampleFabricId : String :=
  "/subscriptions/sub1/resourceGroups/rg1/vaults/vault1/replicationFabrics/fabric1"

/-- `sampleFabricId`, parsed. -/
def sampleFabricRid : ResourceIdentifier :=
  ⟨"sub1", "rg1", "vaults", "vault1", "replicationFabrics", "fabric1"⟩

/-- A concrete fabric state tracking `sampleFabricId`. -/
def sampleFabricState : FabricState :=
  ⟨sampleFabricId, "fabric1", "rg1", "vault1", "westus"⟩

/-- A concrete data-source resource path. -/
def sampleDsId : String :=
  "/subscriptions/sub1/resourceGroups/rg1/workspaces/ws1/dataSources/perf1"

/-- `sampleDsId`, parsed. -/
def sampleDsRid : ResourceIdentifier :=
  ⟨"sub1", "rg1", "workspaces", "ws1", "dataSources", "perf1"⟩

/-- A concrete data-source state tracking `sampleDsId`. -/
def sampleDsState : DsState :=
  ⟨sampleDsId, "perf1", "rg1", "ws1", "% Processor Time", "_Total", 60, "Processor"⟩

example : parseID sampleFabricId = some sampleFabricRid := by decide
example : parseID sampleDsId = some sampleDsRid := by decide

/-! ### Claim theorems -/

/-- C1: for every Create invocation on an identifier for which the remote Get
reports an existing resource, with the import-safety guard enabled
(`requireResourcesToBeImported` for the fabric / a new resource for both),
Create fails with the `ImportAsExists` (AlreadyExists) error and the only
remote call issued is the existence-check Get — no Create/CreateOrUpdate
request is sent. -/
theorem create_on_existing_fails_import_as_exists
    (env : FabricCreateEnv) (df : FabricState) (i : String)
    (denv : DsCreateEnv) (dd : DsState)
    (hf1 : env.guardGet.hasError = false) (hf2 : env.guardGet.id = some i)
    (hf3 : i ≠ "")
    (hd1 : denv.guardGet.hasError = false) (hd2 : denv.guardGet.notFound = false) :
    fabricCreate true true env df =
      (some (Err.importAsExists "azurerm_recovery_services_replication_fabric" i),
       df, [FabricCall.getExisting]) ∧
    dsCreateUpdate true denv dd =
      (some (Err.importAsExists
          "azurerm_log_analytics_datasource_windows_performance_counter"
          (denv.guardGet.id.getD "")),
       dd, [DsCall.getExisting]) := by
  constructor
  · simp [fabricCreate, fabricGuard, hf1, hf2, hf3]
  · simp [dsCreateUpdate, dsGuard, hd1, hd2]

/-- A fabric Create environment whose existence check finds the resource. -/
def c1FabricEnv : FabricCreateEnv :=
  ⟨⟨false, false, some sampleFabricId⟩, false, false, false, sampleFabricId,
   ⟨⟨false, false, Option.none, FabricCustomDetails.other⟩⟩⟩

/-- A data-source Create environment whose existence check finds the
resource. -/
def c1DsEnv : DsCreateEnv :=
  ⟨⟨false, false, some sampleDsId⟩, false, ⟨false, false, some sampleDsId⟩,
   ⟨⟨false, false, Option.none, Option.none⟩⟩⟩

/-- C1 at a concrete input. -/
theorem create_on_existing_fails_import_as_exists_witness :
    fabricCreate true true c1FabricEnv sampleFabricState =
      (some (Err.importAsExists "azurerm_recovery_services_replication_fabric"
          sampleFabricId),
       sampleFabricState, [FabricCall.getExisting]) ∧
    dsCreateUpdate true c1DsEnv sampleDsState =
      (some (Err.importAsExists
          "azurerm_log_analytics_datasource_windows_performance_counter" sampleDsId),
       sampleDsState, [DsCall.getExisting]) :=
  create_on_existing_fails_import_as_exists c1FabricEnv sampleFabricState sampleFabricId
    c1DsEnv sampleDsState rfl rfl (by decide) rfl rfl

/-- C2: for every Read invocation where the remote Get responds not-found
(the Go error is non-nil and `utils.ResponseWasNotFound` holds), both
adapters clear the tracked identifier (`d.SetId("")`) and return success,
never an error. -/
theorem read_notfound_removes_from_state
    (fe : FabricReadEnv) (df : FabricState) (rf : ResourceIdentifier)
    (de : DsReadEnv) (dd : DsState) (rd : ResourceIdentifier)
    (hpf : parseID df.id = some rf)
    (hf1 : fe.get.hasError = true) (hf2 : fe.get.notFound = true)
    (hpd : parseID dd.id = some rd)
    (hd1 : de.get.hasError = true) (hd2 : de.get.notFound = true) :
    fabricRead fe df = (Option.none, { df with id := "" }, [FabricCall.readGet]) ∧
    dsRead de dd = (Option.none, { dd with id := "" }, [DsCall.readGet]) := by
  constructor
  · simp [fabricRead, hpf, hf1, hf2]
  · simp [dsRead, hpd, hd1, hd2]

/-- C2 at a concrete input. -/
theorem read_notfound_removes_from_state_witness :
    fabricRead ⟨⟨true, true, Option.none, FabricCustomDetails.other⟩⟩ sampleFabricState =
      (Option.none, { sampleFabricState with id := "" }, [FabricCall.readGet]) ∧
    dsRead ⟨⟨true, true, Option.none, Option.none⟩⟩ sampleDsState =
      (Option.none, { sampleDsState with id := "" }, [DsCall.readGet]) :=
  read_notfound_removes_from_state
    ⟨⟨true, true, Option.none, FabricCustomDetails.other⟩⟩ sampleFabricState sampleFabricRid
    ⟨⟨true, true, Option.none, Option.none⟩⟩ sampleDsState sampleDsRid
    (by decide) rfl rfl (by decide) rfl rfl

/-- C5: the `interval_seconds` configuration-time validator accepts an
integer `v` iff `10 ≤ v ≤ math.MaxInt32`; in particular `5` is rejected. -/
theorem interval_seconds_validator_bounds (v : Int) :
    (intervalSecondsValidate v = true ↔ 10 ≤ v ∧ v ≤ maxInt32) ∧
    intervalSecondsValidate 5 = false := by
  constructor
  · simp [intervalSecondsValidate, IntBetween, maxInt32]
  · decide

/-- C6: encoding a `DsProperty` into the nested JSON properties document and
decoding it back, as Read does, yields identical field values; in particular
for intervalSeconds=60, counterName="% Processor Time", instanceName="_Total",
objectName="Processor". -/
theorem property_encode_decode_roundtrip (p : DsProperty) :
    decodeProperty (encodeProperty p) = some p ∧
    decodeProperty (encodeProperty ⟨"% Processor Time", "_Total", 60, "Processor"⟩) =
      some ⟨"% Processor Time", "_Total", 60, "Processor"⟩ :=
  ⟨rfl, rfl⟩

/-- C8: the identifier codec round-trips losslessly: `parse (format x) = x`
for every valid identifier, and `format (parse s) = s` for every identifier
string that parses. -/
theorem identifier_codec_roundtrip
    (x : ResourceIdentifier) (s : String) (y : ResourceIdentifier)
    (hx : validIdentifier x = true) (hs : parseID s = some y) :
    parseID (formatID x) = some x ∧ formatID y = s :=
  ⟨parseID_formatID x hx, formatID_parseID s y hs⟩

/-- C8 at a concrete input. -/
theorem identifier_codec_roundtrip_witness :
    parseID (formatID sampleFabricRid) = some sampleFabricRid ∧
    formatID sampleDsRid = sampleDsId :=
  identifier_codec_roundtrip sampleFabricRid sampleDsId sampleDsRid
    (by decide) (by decide)

/-- C9: a successful data-source Read whose remote response carries no nested
properties document (`resp.Properties` is nil) writes only `name`,
`resource_group_name` and `workspace_name`; the four counter fields and the
tracked identifier are left unchanged. -/
theorem read_nil_properties_frame
    (env : DsReadEnv) (d : DsState) (rid : ResourceIdentifier)
    (hp : parseID d.id = some rid)
    (he : env.get.hasError = false)
    (hn : env.get.properties = Option.none) :
    dsRead env d =
      (Option.none,
       { d with name := env.get.name.getD "",
                resource_group_name := rid.resourceGroup,
                workspace_name := rid.parentPath },
       [DsCall.readGet]) ∧
    (dsRead env d).2.1.counter_name = d.counter_name ∧
    (dsRead env d).2.1.instance_name = d.instance_name ∧
    (dsRead env d).2.1.interval_seconds = d.interval_seconds ∧
    (dsRead env d).2.1.object_name = d.object_name ∧
    (dsRead env d).2.1.id = d.id := by
  have h : dsRead env d =
      (Option.none,
       { d with name := env.get.name.getD "",
                resource_group_name := rid.resourceGroup,
                workspace_name := rid.parentPath },
       [DsCall.readGet]) := by
    simp [dsRead, hp, he, hn]
  refine ⟨h, ?_, ?_, ?_, ?_, ?_⟩ <;> rw [h]

/-- C9 at a concrete input. -/
theorem read_nil_properties_frame_witness :
    dsRead ⟨⟨false, false, some "perf1", Option.none⟩⟩ sampleDsState =
      (Option.none,
       { sampleDsState with name := "perf1", resource_group_name := "rg1",
                            workspace_name := "ws1" },
       [DsCall.readGet]) ∧
    (dsRead ⟨⟨false, false, some "perf1", Option.none⟩⟩ sampleDsState).2.1.counter_name =
      sampleDsState.counter_name ∧
    (dsRead ⟨⟨false, false, some "perf1", Option.none⟩⟩ sampleDsState).2.1.instance_name =
      sampleDsState.instance_name ∧
    (dsRead ⟨⟨false, false, some "perf1", Option.none⟩⟩ sampleDsState).2.1.interval_seconds =
      sampleDsState.interval_seconds ∧
    (dsRead ⟨⟨false, false, some "perf1", Option.none⟩⟩ sampleDsState).2.1.object_name =
      sampleDsState.object_name ∧
    (dsRead ⟨⟨false, false, some "perf1", Option.none⟩⟩ sampleDsState).2.1.id =
      sampleDsState.id :=
  read_nil_properties_frame ⟨⟨false, false, some "perf1", Option.none⟩⟩
    sampleDsState sampleDsRid (by decide) rfl rfl

/-- A data-source Delete environment whose remote response is a 404 surfaced
as a non-nil error, exactly as the fabric's own delete handles
(`err != nil` with `utils.ResponseWasNotFound`). -/
def c3DsEnv : DsDeleteEnv := ⟨⟨true, true, Option.none⟩⟩

/-- C3 counterexample: on the data-source kind a not-found delete response
surfaced as an error is NOT treated as success — `dsDelete` returns the
failure, contradicting the claim that a not-found response is treated as
success on either resource kind. -/
theorem ds_delete_notfound_not_success :
    c3DsEnv.deleteResp.notFound = true ∧
    dsDelete c3DsEnv sampleDsState =
      (some Err.deleteFailed, sampleDsState, [DsCall.deleteCall]) := by
  constructor
  · rfl
  · simp [dsDelete, c3DsEnv, show parseID sampleDsId = some sampleDsRid by decide]
    rfl

/-- C3 amended: on the replication fabric a not-found delete result is
treated as success, so deleting twice where the second call observes
not-found succeeds both times, and any other result failure is surfaced as an
error; on the log-analytics data source, Delete succeeds iff the client's
delete call reports no error — the code has no not-found special case, so a
not-found the client surfaces as an error is returned as an error. -/
theorem delete_idempotent_amended
    (fe1 fe2 : FabricDeleteEnv) (df : FabricState) (rf : ResourceIdentifier)
    (de : DsDeleteEnv) (dd : DsState) (rd : ResourceIdentifier)
    (hpf : parseID df.id = some rf) (hpd : parseID dd.id = some rd)
    (h11 : fe1.deleteErr = false) (h12 : fe1.waitErr = false)
    (h13 : fe1.resultErr = false)
    (h21 : fe2.deleteErr = false) (h22 : fe2.waitErr = false)
    (h23 : fe2.resultErr = true) (h24 : fe2.resultNotFound = true) :
    (fabricDelete fe1 df).1 = Option.none ∧
    (fabricDelete fe2 df).1 = Option.none ∧
    (∀ fe3 : FabricDeleteEnv, fe3.deleteErr = false → fe3.waitErr = false →
      fe3.resultErr = true → fe3.resultNotFound = false →
      (fabricDelete fe3 df).1 = some Err.deleteFailed) ∧
    ((dsDelete de dd).1 = Option.none ↔ de.deleteResp.hasError = false) := by
  refine ⟨?_, ?_, ?_, ?_⟩
  · simp [fabricDelete, hpf, h11, h12, h13]
  · simp [fabricDelete, hpf, h21, h22, h23, h24]
  · intro fe3 g1 g2 g3 g4
    simp [fabricDelete, hpf, g1, g2, g3, g4]
  · cases he : de.deleteResp.hasError <;> simp [dsDelete, hpd, he]

/-- C3 amended, at a concrete input. -/
theorem delete_idempotent_amended_witness :
    (fabricDelete ⟨false, false, false, false⟩ sampleFabricState).1 = Option.none ∧
    (fabricDelete ⟨false, false, true, true⟩ sampleFabricState).1 = Option.none ∧
    (∀ fe3 : FabricDeleteEnv, fe3.deleteErr = false → fe3.waitErr = false →
      fe3.resultErr = true → fe3.resultNotFound = false →
      (fabricDelete fe3 sampleFabricState).1 = some Err.deleteFailed) ∧
    ((dsDelete ⟨⟨false, false, Option.none⟩⟩ sampleDsState).1 = Option.none ↔
      (⟨⟨false, false, Option.none⟩⟩ : DsDeleteEnv).deleteResp.hasError = false) :=
  delete_idempotent_amended ⟨false, false, false, false⟩ ⟨false, false, true, true⟩
    sampleFabricState sampleFabricRid ⟨⟨false, false, Option.none⟩⟩ sampleDsState
    sampleDsRid (by decide) (by decide) rfl rfl rfl rfl rfl rfl rfl

/-- A fabric Read issues at most the single `Get`, and exactly it when the
Read succeeds. -/
theorem fabricRead_trace (env : FabricReadEnv) (d : FabricState) :
    ((fabricRead env d).2.2 = [] ∨ (fabricRead env d).2.2 = [FabricCall.readGet]) ∧
    ((fabricRead env d).1 = Option.none → (fabricRead env d).2.2 = [FabricCall.readGet]) := by
  unfold fabricRead
  rcases hp : parseID d.id with _ | rid
  · simp
  · cases he : env.get.hasError
    · rcases hc : env.get.customDetails with l | _
      · rcases l with _ | l <;> simp [he, hc]
      · simp [he, hc]
    · cases hn : env.get.notFound <;> simp [he, hn]

/-- A data-source Read issues at most the single `Get`, and exactly it when
the Read succeeds. -/
theorem dsRead_trace (env : DsReadEnv) (d : DsState) :
    ((dsRead env d).2.2 = [] ∨ (dsRead env d).2.2 = [DsCall.readGet]) ∧
    ((dsRead env d).1 = Option.none → (dsRead env d).2.2 = [DsCall.readGet]) := by
  unfold dsRead
  rcases hp : parseID d.id with _ | rid
  · simp
  · cases he : env.get.hasError
    · rcases hprops : env.get.properties with _ | doc
      · simp [he, hprops]
      · rcases hd : decodeProperty doc with _ | p <;> simp [he, hprops, hd]
    · cases hn : env.get.notFound <;> simp [he, hn]

/-- With the guard enabled, the fabric guard always issues exactly the
existence-check Get. -/
theorem fabricGuard_trace (r : Response) :
    (fabricGuard true true r).2 = [FabricCall.getExisting] := by
  rcases r with ⟨he, nf, idv⟩
  cases he <;> cases nf <;> rcases idv with _ | i <;>
    simp [fabricGuard] <;>
    first
      | rfl
      | (by_cases hi : i = "" <;> simp [hi])

/-- For a new resource, the data-source guard always issues exactly the
existence-check Get. -/
theorem dsGuard_trace (r : Response) :
    (dsGuard true r).2 = [DsCall.getExisting] := by
  rcases r with ⟨he, nf, idv⟩
  cases he <;> cases nf <;> simp [dsGuard]

/-- Every guard-enabled fabric Create issues its remote calls in the
canonical order (every trace extends to the full sequence), and a successful
one issues exactly the full sequence. -/
theorem fabricCreate_trace (env : FabricCreateEnv) (df : FabricState) :
    (∃ rest, (fabricCreate true true env df).2.2 ++ rest = fabricFullTrace df.location) ∧
    ((fabricCreate true true env df).1 = Option.none →
      (fabricCreate true true env df).2.2 = fabricFullTrace df.location) := by
  unfold fabricCreate
  rcases hg : fabricGuard true true env.guardGet with ⟨o, t⟩
  have ht : t = [FabricCall.getExisting] := by
    have := fabricGuard_trace env.guardGet
    rw [hg] at this
    exact this
  subst ht
  cases o with
  | some e =>
    constructor
    · exact ⟨[FabricCall.create ⟨⟨df.location, InstanceTypeAzure⟩⟩,
              FabricCall.waitForCompletion, FabricCall.futureResult,
              FabricCall.readGet], rfl⟩
    · intro h
      simp at h
  | none =>
    by_cases hce : env.createErr
    · constructor
      · refine ⟨[FabricCall.waitForCompletion, FabricCall.futureResult,
                 FabricCall.readGet], ?_⟩
        simp [hce, fabricFullTrace]
      · intro h
        simp [hce] at h
    · by_cases hwe : env.waitErr
      · constructor
        · refine ⟨[FabricCall.futureResult, FabricCall.readGet], ?_⟩
          simp [hce, hwe, fabricFullTrace]
        · intro h
          simp [hce, hwe] at h
      · by_cases hre : env.resultErr
        · constructor
          · refine ⟨[FabricCall.readGet], ?_⟩
            simp [hce, hwe, hre, fabricFullTrace]
          · intro h
            simp [hce, hwe, hre] at h
        · rcases hr : fabricRead env.readEnv { df with id := env.resultId } with ⟨r, d2, rt⟩
          have htr := fabricRead_trace env.readEnv { df with id := env.resultId }
          rw [hr] at htr
          constructor
          · rcases htr.1 with h | h
            · refine ⟨[FabricCall.readGet], ?_⟩
              simp [hce, hwe, hre, hr, fabricFullTrace]
              simpa using h
            · refine ⟨[], ?_⟩
              simp [hce, hwe, hre, hr, fabricFullTrace]
              simpa using h
          · intro hnone
            simp [hce, hwe, hre, hr] at hnone
            have := htr.2 hnone
            simp [hce, hwe, hre, hr, fabricFullTrace]
            simpa using this

/-- Every new-resource data-source CreateUpdate issues its remote calls in
the canonical order, and a successful one issues exactly the full sequence. -/
theorem dsCreateUpdate_trace (env : DsCreateEnv) (dd : DsState) :
    (∃ rest, (dsCreateUpdate true env dd).2.2 ++ rest = dsFullTrace dd) ∧
    ((dsCreateUpdate true env dd).1 = Option.none →
      (dsCreateUpdate true env dd).2.2 = dsFullTrace dd) := by
  unfold dsCreateUpdate
  rcases hg : dsGuard true env.guardGet with ⟨o, t⟩
  have ht : t = [DsCall.getExisting] := by
    have := dsGuard_trace env.guardGet
    rw [hg] at this
    exact this
  subst ht
  cases o with
  | some e =>
    constructor
    · exact ⟨[DsCall.createOrUpdate "WindowsPerformanceCounter"
                (encodeProperty (dsProperty dd)),
              DsCall.getAfterCreate, DsCall.readGet], rfl⟩
    · intro h
      simp at h
  | none =>
    by_cases hce : env.createOrUpdateErr
    · constructor
      · refine ⟨[DsCall.getAfterCreate, DsCall.readGet], ?_⟩
        simp [hce, dsFullTrace]
      · intro h
        simp [hce] at h
    · by_cases hae : env.afterGet.hasError
      · constructor
        · refine ⟨[DsCall.readGet], ?_⟩
          simp [hce, hae, dsFullTrace]
        · intro h
          simp [hce, hae] at h
      · rcases hid : env.afterGet.id with _ | i
        · constructor
          · refine ⟨[DsCall.readGet], ?_⟩
            simp [hce, hae, hid, dsFullTrace]
          · intro h
            simp [hce, hae, hid] at h
        · by_cases hi : i = ""
          · constructor
            · refine ⟨[DsCall.readGet], ?_⟩
              simp [hce, hae, hid, hi, dsFullTrace]
            · intro h
              simp [hce, hae, hid, hi] at h
          · rcases hr : dsRead env.readEnv { dd with id := i } with ⟨r, d2, rt⟩
            have htr := dsRead_trace env.readEnv { dd with id := i }
            rw [hr] at htr
            constructor
            · rcases htr.1 with h | h
              · refine ⟨[DsCall.readGet], ?_⟩
                simp [hce, hae, hid, hi, hr, dsFullTrace]
                simpa using h
              · refine ⟨[], ?_⟩
                simp [hce, hae, hid, hi, hr, dsFullTrace]
                simpa using h
            · intro hnone
              simp [hce, hae, hid, hi, hr] at hnone
              have := htr.2 hnone
              simp [hce, hae, hid, hi, hr, dsFullTrace]
              simpa using this

/-- C7: with the import-safety guard active (a new resource;
`requireResourcesToBeImported` for the fabric), every Create performs
existence-check, creation submission, completion await and final read in
exactly that order — a successful run issues exactly the canonical sequence,
and every run's call sequence is an initial segment of it, so no step is
skipped or reordered.  For the data source the synchronous `CreateOrUpdate`
call both submits and awaits completion. -/
theorem create_steps_ordered
    (env : FabricCreateEnv) (df : FabricState) (denv : DsCreateEnv) (dd : DsState)
    (hf : (fabricCreate true true env df).1 = Option.none)
    (hd : (dsCreateUpdate true denv dd).1 = Option.none) :
    (fabricCreate true true env df).2.2 = fabricFullTrace df.location ∧
    (dsCreateUpdate true denv dd).2.2 = dsFullTrace dd ∧
    (∀ e2 : FabricCreateEnv, ∃ rest,
      (fabricCreate true true e2 df).2.2 ++ rest = fabricFullTrace df.location) ∧
    (∀ e2 : DsCreateEnv, ∃ rest,
      (dsCreateUpdate true e2 dd).2.2 ++ rest = dsFullTrace dd) :=
  ⟨(fabricCreate_trace env df).2 hf, (dsCreateUpdate_trace denv dd).2 hd,
   fun e2 => (fabricCreate_trace e2 df).1, fun e2 => (dsCreateUpdate_trace e2 dd).1⟩

/-- A fabric Create environment in which every step succeeds. -/
def c7FabricEnv : FabricCreateEnv :=
  ⟨⟨true, true, Option.none⟩, false, false, false, sampleFabricId,
   ⟨⟨false, false, some "fabric1", FabricCustomDetails.azure (some "West US")⟩⟩⟩

/-- A data-source Create environment in which every step succeeds. -/
def c7DsEnv : DsCreateEnv :=
  ⟨⟨true, true, Option.none⟩, false, ⟨false, false, some sampleDsId⟩,
   ⟨⟨false, false, some "perf1",
     some (encodeProperty ⟨"% Processor Time", "_Total", 60, "Processor"⟩)⟩⟩⟩

/-- C7 at a concrete input. -/
theorem create_steps_ordered_witness :
    (fabricCreate true true c7FabricEnv sampleFabricState).2.2 =
      fabricFullTrace sampleFabricState.location ∧
    (dsCreateUpdate true c7DsEnv sampleDsState).2.2 = dsFullTrace sampleDsState ∧
    (∀ e2 : FabricCreateEnv, ∃ rest,
      (fabricCreate true true e2 sampleFabricState).2.2 ++ rest =
        fabricFullTrace sampleFabricState.location) ∧
    (∀ e2 : DsCreateEnv, ∃ rest,
      (dsCreateUpdate true e2 sampleDsState).2.2 ++ rest = dsFullTrace sampleDsState) :=
  create_steps_ordered c7FabricEnv sampleFabricState c7DsEnv sampleDsState
    (by decide) (by decide)

/-- The fabric guard lets Create proceed exactly when disabled or passing. -/
theorem fabricGuard_none_iff (ri ni : Bool) (r : Response) :
    (fabricGuard ri ni r).1 = Option.none ↔
      (!(ri && ni) || fabricGuardPasses r) = true := by
  cases hri : ri && ni
  · simp [fabricGuard, hri]
  · rcases r with ⟨he, nf, idv⟩
    cases he <;> cases nf <;> rcases idv with _ | i <;>
      simp [fabricGuard, fabricGuardPasses, hri] <;>
      by_cases hi : i = "" <;> simp [hi]

/-- The data-source guard lets CreateUpdate proceed exactly when the resource
is not new or the existence check came back 404. -/
theorem dsGuard_none_iff (isNew : Bool) (r : Response) :
    (dsGuard isNew r).1 = Option.none ↔ (!isNew || r.notFound) = true := by
  cases hn : isNew
  · simp [dsGuard, hn]
  · rcases r with ⟨he, nf, idv⟩
    cases he <;> cases nf <;> simp [dsGuard, hn]

/-- When a pre-`SetId` step of the fabric Create fails, Create returns an
error and leaves the state — in particular the tracked identifier —
untouched. -/
theorem fabricCreate_not_stepsOK (ri ni : Bool) (env : FabricCreateEnv)
    (df : FabricState) (h : fabricStepsOK ri ni env = false) :
    (fabricCreate ri ni env df).1 ≠ Option.none ∧
    (fabricCreate ri ni env df).2.1 = df := by
  unfold fabricCreate
  rcases hg : fabricGuard ri ni env.guardGet with ⟨o, t⟩
  cases o with
  | some e => simp
  | none =>
    have hpass : (!(ri && ni) || fabricGuardPasses env.guardGet) = true := by
      rw [← fabricGuard_none_iff ri ni env.guardGet, hg]
    unfold fabricStepsOK at h
    rw [hpass] at h
    simp only [Bool.true_and, Bool.and_eq_false_iff, Bool.not_eq_false'] at h
    by_cases hce : env.createErr
    · simp [hce]
    · by_cases hwe : env.waitErr
      · simp [hce, hwe]
      · have hre : env.resultErr = true := by
          rcases h with (h | h) | h
          · exact absurd h hce
          · exact absurd h hwe
          · exact h
        simp [hce, hwe, hre]

/-- When a pre-`SetId` step of the data-source CreateUpdate fails,
CreateUpdate returns an error and leaves the state untouched. -/
theorem dsCreateUpdate_not_stepsOK (isNew : Bool) (env : DsCreateEnv)
    (dd : DsState) (h : dsStepsOK isNew env = false) :
    (dsCreateUpdate isNew env dd).1 ≠ Option.none ∧
    (dsCreateUpdate isNew env dd).2.1 = dd := by
  unfold dsCreateUpdate
  rcases hg : dsGuard isNew env.guardGet with ⟨o, t⟩
  cases o with
  | some e => simp
  | none =>
    have hpass : (!isNew || env.guardGet.notFound) = true := by
      rw [← dsGuard_none_iff isNew env.guardGet, hg]
    unfold dsStepsOK at h
    rw [hpass] at h
    simp only [Bool.true_and, Bool.and_eq_false_iff, Bool.not_eq_false'] at h
    by_cases hce : env.createOrUpdateErr
    · simp [hce]
    · by_cases hae : env.afterGet.hasError
      · simp [hce, hae]
      · rcases hid : env.afterGet.id with _ | i
        · simp [hce, hae, hid]
        · by_cases hi : i = ""
          · simp [hce, hae, hid, hi]
          · exfalso
            rw [hid] at h
            simp [hce, hae, hi] at h

/-- C4: Create is atomic with respect to the tracked identifier: for both
resource kinds the identifier changes only if the existence check, the
creation request, the completion wait and the final fetch all succeeded
(`SetId` runs only after them), and whenever one of those steps fails the
invocation returns an error with the state — in particular the identifier —
unchanged. -/
theorem create_atomic_identifier
    (ri ni : Bool) (env : FabricCreateEnv) (df : FabricState)
    (isNew : Bool) (denv : DsCreateEnv) (dd : DsState) :
    ((fabricCreate ri ni env df).2.1.id ≠ df.id → fabricStepsOK ri ni env = true) ∧
    (fabricStepsOK ri ni env = false →
      (fabricCreate ri ni env df).1 ≠ Option.none ∧
      (fabricCreate ri ni env df).2.1 = df) ∧
    ((dsCreateUpdate isNew denv dd).2.1.id ≠ dd.id → dsStepsOK isNew denv = true) ∧
    (dsStepsOK isNew denv = false →
      (dsCreateUpdate isNew denv dd).1 ≠ Option.none ∧
      (dsCreateUpdate isNew denv dd).2.1 = dd) := by
  refine ⟨?_, fabricCreate_not_stepsOK ri ni env df, ?_,
          dsCreateUpdate_not_stepsOK isNew denv dd⟩
  · intro hne
    by_contra hok
    rw [Bool.not_eq_true] at hok
    exact hne (congrArg FabricState.id
      (fabricCreate_not_stepsOK ri ni env df hok).2)
  · intro hne
    by_contra hok
    rw [Bool.not_eq_true] at hok
    exact hne (congrArg DsState.id
      (dsCreateUpdate_not_stepsOK isNew denv dd hok).2)

/-- The fabric guard issues no call beyond the existence-check Get. -/
theorem fabricGuard_trace_cases (ri ni : Bool) (r : Response) :
    (fabricGuard ri ni r).2 = [] ∨ (fabricGuard ri ni r).2 = [FabricCall.getExisting] := by
  cases hri : ri && ni
  · left
    simp [fabricGuard, hri]
  · right
    rcases r with ⟨he, nf, idv⟩
    cases he <;> cases nf <;> rcases idv with _ | i <;>
      simp [fabricGuard, hri] <;>
      by_cases hi : i = "" <;> simp [hi]

/-- C10: the replication fabric declares no Update operation; every
configurable attribute of its schema is create-only (ForceNew); every
creation request it ever submits carries an Azure-instance fabric payload
(`InstanceType Azure`); and Read writes `location` only when the remote
custom details are Azure-specific (and carry a location). -/
theorem fabric_force_new_azure_only :
    fabricResourceOps.update = Option.none ∧
    (∀ a ∈ fabricSchema, a.forceNew = true) ∧
    (∀ (ri ni : Bool) (env : FabricCreateEnv) (df : FabricState)
       (inp : FabricCreationInput),
      FabricCall.create inp ∈ (fabricCreate ri ni env df).2.2 →
      inp.customDetails.instanceType = InstanceTypeAzure) ∧
    (∀ (env : FabricReadEnv) (df : FabricState),
      (fabricRead env df).2.1.location ≠ df.location →
      ∃ l, env.get.customDetails = FabricCustomDetails.azure (some l)) := by
  refine ⟨rfl, ?_, ?_, ?_⟩
  · intro a ha
    simp only [fabricSchema, List.mem_cons, List.not_mem_nil, or_false] at ha
    rcases ha with rfl | rfl | rfl | rfl <;> rfl
  · intro ri ni env df inp hmem
    unfold fabricCreate at hmem
    rcases hg : fabricGuard ri ni env.guardGet with ⟨o, t⟩
    rw [hg] at hmem
    have htc := fabricGuard_trace_cases ri ni env.guardGet
    rw [hg] at htc
    have hno : FabricCall.create inp ∉ t := by
      rcases htc with h | h
      · have h' : t = [] := h
        simp [h']
      · have h' : t = [FabricCall.getExisting] := h
        simp [h']
    cases o with
    | some e => exact absurd hmem hno
    | none =>
      by_cases hce : env.createErr
      · simp [hce] at hmem
        rcases hmem with h | h
        · exact absurd h hno
        · cases h
          rfl
      · by_cases hwe : env.waitErr
        · simp [hce, hwe] at hmem
          rcases hmem with h | h
          · exact absurd h hno
          · cases h
            rfl
        · by_cases hre : env.resultErr
          · simp [hce, hwe, hre] at hmem
            rcases hmem with h | h
            · exact absurd h hno
            · cases h
              rfl
          · rcases hr : fabricRead env.readEnv { df with id := env.resultId }
              with ⟨rr, d2, rt⟩
            have hrt := fabricRead_trace env.readEnv { df with id := env.resultId }
            rw [hr] at hrt
            have hnrt : FabricCall.create inp ∉ rt := by
              rcases hrt.1 with h | h
              · have h' : rt = [] := h
                simp [h']
              · have h' : rt = [FabricCall.readGet] := h
                simp [h']
            simp [hce, hwe, hre, hr] at hmem
            rcases hmem with h | h | h
            · exact absurd h hno
            · cases h
              rfl
            · exact absurd h hnrt
  · intro env df hloc
    rcases hp : parseID df.id with _ | rid
    · exfalso
      apply hloc
      unfold fabricRead
      rw [hp]
    · cases he : env.get.hasError
      · rcases hc : env.get.customDetails with l | _
        · rcases l with _ | l
          · exfalso
            apply hloc
            unfold fabricRead
            rw [hp]
            simp [he, hc]
          · exact ⟨l, rfl⟩

        · exfalso
          apply hloc
          unfold fabricRead
          rw [hp]
          simp [he, hc]
      · exfalso
        apply hloc
        unfold fabricRead
        rw [hp]
        cases hn : env.get.notFound <;> simp [he, hn]
